import Mathlib

/-!
# Verification of `readCpuTimer` (src/cycles.c)

The translation unit consists of one function, `uint64_t readCpuTimer()`, whose body is
chosen by a preprocessor conditional over the predefined architecture macros:

* `__i386__`                 : `rdtsc` with the result bound to the `"=A"` register pair;
* `__x86_64__ || __amd64__`  : `rdtsc` into `low` / `high`, returning `(high << 32) | low`;
* `__aarch64__`              : `mrs %0, pmccntr_el0` into `val`, returning `val`;
* otherwise                  : `#error`.

`uint64_t` values are natural numbers below `2 ^ 64`; every C operator that can leave
that range is reduced modulo `2 ^ 64` explicitly.
-/

namespace Cycles

/-! ## Machine arithmetic on `uint64_t` -/

/-- Number of values of the C type `uint64_t`. -/
def UINT64_MOD : Nat := 2 ^ 64

/-- C `x << s` on `uint64_t` operands: bits shifted past position 63 are dropped. -/
def shl64 (x s : Nat) : Nat := (x <<< s) % UINT64_MOD

/-- C `x | y` on `uint64_t` operands. -/
def or64 (x y : Nat) : Nat := (x ||| y) % UINT64_MOD

/-! ## The three function bodies -/

/-- Body under `#if defined(__i386__)` (cycles.c lines 7-9): `rdtsc` leaves the low word
of the counter in `eax` and the high word in `edx`; the output constraint `"=A"` binds
the 64-bit variable `ret` to the register pair `edx:eax`, and `ret` is returned. Both
registers are 32 bits wide on this target. -/
def readCpuTimer_i386 (eax edx : Nat) : Nat := edx * 2 ^ 32 + eax

/-- Body under `#elif defined(__x86_64__) || defined(__amd64__)` (cycles.c lines 11-13):
`low` is bound to the `a` register and `high` to the `d` register, both `uint64_t`;
the function returns `(high << 32) | low`. -/
def readCpuTimer_x86_64 (low high : Nat) : Nat := or64 (shl64 high 32) low

/-- Body under `#elif defined(__aarch64__)` (cycles.c lines 15-17): `val` receives the
content of `pmccntr_el0` and is returned. -/
def readCpuTimer_aarch64 (val : Nat) : Nat := val

/-! ## Preprocessor dispatch -/

/-- The code paths that survive preprocessing, one per `#if` / `#elif` branch. -/
inductive ReadStrategy where
  | rdtscPair
  | rdtscSplit
  | mrsPmccntr
  deriving DecidableEq, Repr

/-- Text of the `#error` directive (cycles.c line 19). -/
def errorDiagnostic : String :=
  "You need to define readCpuTimer for your OS and CPU architecture"

/-- The `#if defined(..) / #elif / #else #error / #endif` chain of cycles.c lines 6-20.
The argument answers `defined(NAME)` for the compilation target. -/
def selectStrategy (defined : String → Bool) : Except String ReadStrategy :=
  if defined "__i386__" then
    .ok .rdtscPair
  else if defined "__x86_64__" || defined "__amd64__" then
    .ok .rdtscSplit
  else if defined "__aarch64__" then
    .ok .mrsPmccntr
  else
    .error errorDiagnostic

/-! ## The whole function -/

/-- Values the hardware hands to the inline assembly: the `a` and `d` registers as left
by `rdtsc`, and the system register `pmccntr_el0`. -/
structure Registers where
  a : Nat
  d : Nat
  pmccntr_el0 : Nat
  deriving DecidableEq, Repr

/-- The compiled function body for a code path. The program state `mem` (globals, heap,
files) is passed through: no branch of the source reads or writes it. -/
def body {σ : Type} : ReadStrategy → Registers → σ → Nat × σ
  | .rdtscPair, r, mem => (readCpuTimer_i386 r.a r.d, mem)
  | .rdtscSplit, r, mem => (readCpuTimer_x86_64 r.a r.d, mem)
  | .mrsPmccntr, r, mem => (readCpuTimer_aarch64 r.pmccntr_el0, mem)

/-- Building `readCpuTimer` for a target: either the `#error` diagnostic, or the
compiled function. -/
def readCpuTimer {σ : Type} (defined : String → Bool) :
    Except String (Registers → σ → Nat × σ) :=
  match selectStrategy defined with
  | .ok s => .ok (body s)
  | .error e => .error e

/-- Target description in which exactly the listed macro names are defined. -/
def definedIn (names : List String) : String → Bool := fun n => names.contains n

/-! ## Arithmetic of the x86-64 combination -/

theorem shl64_32_of_lt {high : Nat} (hh : high < 2 ^ 32) :
    shl64 high 32 = 2 ^ 32 * high := by
  unfold shl64 UINT64_MOD
  rw [Nat.shiftLeft_eq, Nat.mul_comm]
  apply Nat.mod_eq_of_lt
  omega

theorem x86_64_eq_of_lt {low high : Nat} (hl : low < 2 ^ 32) (hh : high < 2 ^ 32) :
    readCpuTimer_x86_64 low high = high * 2 ^ 32 + low := by
  unfold readCpuTimer_x86_64 or64 UINT64_MOD
  rw [shl64_32_of_lt hh, ← Nat.mul_add_lt_is_or hl high]
  rw [Nat.mod_eq_of_lt (by omega)]
  ring

/-! ## Claims -/

/-- C1: on the x86-64 path, for register values `low` and `high` below `2 ^ 32`, the
returned value `(high << 32) | low` equals `high * 2 ^ 32 + low` and is a `uint64_t`. -/
theorem C1_x86_64_combine (low high : Nat) (hl : low < 2 ^ 32) (hh : high < 2 ^ 32) :
    readCpuTimer_x86_64 low high = high * 2 ^ 32 + low ∧
      readCpuTimer_x86_64 low high < UINT64_MOD := by
  rw [x86_64_eq_of_lt hl hh]
  refine ⟨rfl, ?_⟩
  unfold UINT64_MOD
  omega

/-- C1, the instance of the specification: `low = 0xFFFFFFFF` and `high = 0x00000001`
give `0x1FFFFFFFF`. -/
theorem C1_x86_64_combine_witness :
    0xFFFFFFFF < 2 ^ 32 ∧ 0x00000001 < 2 ^ 32 ∧
      readCpuTimer_x86_64 0xFFFFFFFF 0x00000001 = 0x1FFFFFFFF :=
  ⟨by norm_num, by norm_num,
    (C1_x86_64_combine 0xFFFFFFFF 0x00000001 (by norm_num) (by norm_num)).1.trans
      (by norm_num)⟩

/-- C2: on the x86-64 path, for `low` and `high` below `2 ^ 32`, the returned value `r`
satisfies `r >> 32 = high` and `r & 0xFFFFFFFF = low`. -/
theorem C2_halves_recovered (low high : Nat) (hl : low < 2 ^ 32) (hh : high < 2 ^ 32) :
    readCpuTimer_x86_64 low high >>> 32 = high ∧
      readCpuTimer_x86_64 low high &&& 0xFFFFFFFF = low := by
  rw [x86_64_eq_of_lt hl hh]
  constructor
  · rw [Nat.shiftRight_eq_div_pow]
    omega
  · have h : (0xFFFFFFFF : Nat) = 2 ^ 32 - 1 := by norm_num
    rw [h, Nat.and_pow_two_sub_one_eq_mod]
    omega

/-- C2 at `low = 0xDEADBEEF`, `high = 0x12345678`. -/
theorem C2_halves_recovered_witness :
    0xDEADBEEF < 2 ^ 32 ∧ 0x12345678 < 2 ^ 32 ∧
      readCpuTimer_x86_64 0xDEADBEEF 0x12345678 >>> 32 = 0x12345678 ∧
      readCpuTimer_x86_64 0xDEADBEEF 0x12345678 &&& 0xFFFFFFFF = 0xDEADBEEF :=
  ⟨by norm_num, by norm_num,
    C2_halves_recovered 0xDEADBEEF 0x12345678 (by norm_num) (by norm_num)⟩

/-- C3: building `readCpuTimer` stops with the `#error` diagnostic exactly when none of
`__i386__`, `__x86_64__`, `__amd64__`, `__aarch64__` is defined; on every other target
the build yields the body of one of the three hardware read strategies. -/
theorem C3_build_error_iff (σ : Type) (defined : String → Bool) :
    (@readCpuTimer σ defined = .error errorDiagnostic ↔
        (defined "__i386__" = false ∧ defined "__x86_64__" = false ∧
          defined "__amd64__" = false ∧ defined "__aarch64__" = false)) ∧
      (¬ (defined "__i386__" = false ∧ defined "__x86_64__" = false ∧
            defined "__amd64__" = false ∧ defined "__aarch64__" = false) →
        ∃ s : ReadStrategy,
          selectStrategy defined = .ok s ∧ @readCpuTimer σ defined = .ok (body s)) := by
  unfold readCpuTimer selectStrategy
  cases h1 : defined "__i386__" <;> cases h2 : defined "__x86_64__" <;>
    cases h3 : defined "__amd64__" <;> cases h4 : defined "__aarch64__" <;> simp

/-- C3 on concrete targets: a target defining only `__riscv` is rejected with the
diagnostic, a target defining `__x86_64__` and `__amd64__` builds. -/
theorem C3_build_error_iff_witness :
    @readCpuTimer Unit (definedIn ["__riscv"]) = .error errorDiagnostic ∧
      ∃ s : ReadStrategy,
        selectStrategy (definedIn ["__x86_64__", "__amd64__"]) = .ok s ∧
          @readCpuTimer Unit (definedIn ["__x86_64__", "__amd64__"]) = .ok (body s) :=
  ⟨(C3_build_error_iff Unit (definedIn ["__riscv"])).1.mpr (by decide),
    (C3_build_error_iff Unit (definedIn ["__x86_64__", "__amd64__"])).2 (by decide)⟩

/-- C4: on every target where the build succeeds the dispatch selects exactly one read
strategy, determined by the four architecture macros alone: the 32-bit x86 strategy when
`__i386__` is defined, otherwise the 64-bit x86 strategy when `__x86_64__` or `__amd64__`
is defined, otherwise the ARM strategy (and then `__aarch64__` is defined). The compiled
function is the body of that strategy for all runtime values. -/
theorem C4_static_dispatch (defined : String → Bool) (s : ReadStrategy)
    (hs : selectStrategy defined = .ok s) :
    (∀ t : ReadStrategy, selectStrategy defined = .ok t → t = s) ∧
      (defined "__i386__" = true → s = .rdtscPair) ∧
      (defined "__i386__" = false →
        (defined "__x86_64__" = true ∨ defined "__amd64__" = true) → s = .rdtscSplit) ∧
      (defined "__i386__" = false → defined "__x86_64__" = false →
        defined "__amd64__" = false → s = .mrsPmccntr ∧ defined "__aarch64__" = true) ∧
      (∀ other : String → Bool,
        other "__i386__" = defined "__i386__" → other "__x86_64__" = defined "__x86_64__" →
        other "__amd64__" = defined "__amd64__" →
        other "__aarch64__" = defined "__aarch64__" → selectStrategy other = .ok s) ∧
      (∀ σ : Type, @readCpuTimer σ defined = .ok (body s)) := by
  refine ⟨?_, ?_, ?_, ?_, ?_, ?_⟩
  · intro t ht
    rw [hs] at ht
    injection ht with ht
    exact ht.symm
  · intro h1
    simp [selectStrategy, h1] at hs
    exact hs.symm
  · intro h1 h23
    rcases h23 with h2 | h3
    · simp [selectStrategy, h1, h2] at hs
      exact hs.symm
    · simp [selectStrategy, h1, h3] at hs
      exact hs.symm
  · intro h1 h2 h3
    cases h4 : defined "__aarch64__"
    · simp [selectStrategy, h1, h2, h3, h4] at hs
    · simp [selectStrategy, h1, h2, h3, h4] at hs
      exact ⟨hs.symm, rfl⟩
  · intro other o1 o2 o3 o4
    rw [← hs]
    simp only [selectStrategy, o1, o2, o3, o4]
  · intro σ
    simp only [readCpuTimer, hs]

/-- C4 on a target defining both `__i386__` and `__x86_64__`: the first branch wins. -/
theorem C4_static_dispatch_witness :
    selectStrategy (definedIn ["__x86_64__", "__i386__"]) = .ok .rdtscPair ∧
      ∀ t : ReadStrategy,
        selectStrategy (definedIn ["__x86_64__", "__i386__"]) = .ok t → t = .rdtscPair :=
  ⟨rfl, (C4_static_dispatch (definedIn ["__x86_64__", "__i386__"]) .rdtscPair rfl).1⟩

/-- C5: on the 64-bit ARM path (none of the x86 macros defined, `__aarch64__` defined)
the compiled function returns exactly the value of `pmccntr_el0`, with no combination,
shift or mask, and leaves the program state as it was. -/
theorem C5_aarch64_returns_register (σ : Type) (defined : String → Bool) (r : Registers)
    (mem : σ) (h1 : defined "__i386__" = false) (h2 : defined "__x86_64__" = false)
    (h3 : defined "__amd64__" = false) (h4 : defined "__aarch64__" = true) :
    readCpuTimer_aarch64 r.pmccntr_el0 = r.pmccntr_el0 ∧
      ∃ f : Registers → σ → Nat × σ,
        @readCpuTimer σ defined = .ok f ∧ f r mem = (r.pmccntr_el0, mem) := by
  refine ⟨rfl, body .mrsPmccntr, ?_, rfl⟩
  simp [readCpuTimer, selectStrategy, h1, h2, h3, h4]

/-- C5 at the largest counter value `2 ^ 64 - 1`, with unrelated contents in `a`, `d`. -/
theorem C5_aarch64_returns_register_witness :
    ∃ f : Registers → Unit → Nat × Unit,
      @readCpuTimer Unit (definedIn ["__aarch64__"]) = .ok f ∧
        f ⟨7, 9, 0xFFFFFFFFFFFFFFFF⟩ () = (0xFFFFFFFFFFFFFFFF, ()) :=
  (C5_aarch64_returns_register Unit (definedIn ["__aarch64__"])
    ⟨7, 9, 0xFFFFFFFFFFFFFFFF⟩ () (by decide) (by decide) (by decide) (by decide)).2

/-- C6: the 32-bit x86 path and the 64-bit x86 path combine identically: for 32-bit
register contents `low` (in `a`) and `high` (in `d`), the register pair read as one
64-bit value equals `(high << 32) | low`; the two compiled bodies agree as well. -/
theorem C6_x86_paths_agree (low high : Nat) (hl : low < 2 ^ 32) (hh : high < 2 ^ 32) :
    readCpuTimer_i386 low high = readCpuTimer_x86_64 low high ∧
      ∀ (σ : Type) (pm : Nat) (mem : σ),
        body .rdtscPair ⟨low, high, pm⟩ mem = body .rdtscSplit ⟨low, high, pm⟩ mem := by
  have h : readCpuTimer_i386 low high = readCpuTimer_x86_64 low high := by
    rw [x86_64_eq_of_lt hl hh, readCpuTimer_i386]
  refine ⟨h, ?_⟩
  intro σ pm mem
  simp only [body, h]

/-- C6 at `low = 0xFFFFFFFF`, `high = 0xFFFFFFFF`, where both paths give `2 ^ 64 - 1`. -/
theorem C6_x86_paths_agree_witness :
    0xFFFFFFFF < 2 ^ 32 ∧
      readCpuTimer_i386 0xFFFFFFFF 0xFFFFFFFF = readCpuTimer_x86_64 0xFFFFFFFF 0xFFFFFFFF ∧
      readCpuTimer_x86_64 0xFFFFFFFF 0xFFFFFFFF = 0xFFFFFFFFFFFFFFFF :=
  ⟨by norm_num,
    (C6_x86_paths_agree 0xFFFFFFFF 0xFFFFFFFF (by norm_num) (by norm_num)).1, by decide⟩

/-- C7 as stated fails: over all `uint64_t` values of `low` and `high` the map is not
injective. `high = 2 ^ 32` loses its set bit in the shift, so `(low, high) = (0, 2 ^ 32)`
and `(0, 0)` both return `0`; and `(2 ^ 32, 0)` and `(0, 1)` both return `2 ^ 32`. -/
theorem C7_not_injective_on_uint64 :
    (2 ^ 32 < UINT64_MOD ∧
        readCpuTimer_x86_64 0 (2 ^ 32) = 0 ∧ readCpuTimer_x86_64 0 0 = 0 ∧
        readCpuTimer_x86_64 (2 ^ 32) 0 = 2 ^ 32 ∧ readCpuTimer_x86_64 0 1 = 2 ^ 32) ∧
      ¬ (∀ low1 high1 low2 high2 : Nat,
          low1 < UINT64_MOD → high1 < UINT64_MOD → low2 < UINT64_MOD → high2 < UINT64_MOD →
          readCpuTimer_x86_64 low1 high1 = readCpuTimer_x86_64 low2 high2 →
          high1 = high2 ∧ low1 = low2) := by
  refine ⟨by decide, ?_⟩
  intro h
  have h0 := h 0 (2 ^ 32) 0 0 (by decide) (by decide) (by decide) (by decide) (by decide)
  exact absurd h0.1 (by decide)

/-- C7, amended: on register values below `2 ^ 32` (what `rdtsc` delivers) the
combination `(high << 32) | low` discards no bit: equal results force equal pairs. -/
theorem C7_injective_on_32bit (low1 high1 low2 high2 : Nat)
    (hl1 : low1 < 2 ^ 32) (hh1 : high1 < 2 ^ 32) (hl2 : low2 < 2 ^ 32) (hh2 : high2 < 2 ^ 32)
    (heq : readCpuTimer_x86_64 low1 high1 = readCpuTimer_x86_64 low2 high2) :
    high1 = high2 ∧ low1 = low2 := by
  rw [x86_64_eq_of_lt hl1 hh1, x86_64_eq_of_lt hl2 hh2] at heq
  omega

/-- C7 amended, at a concrete pair: any way of writing `0x1FFFFFFFF` as a combination of
32-bit halves uses `high = 1`, `low = 0xFFFFFFFF`. -/
theorem C7_injective_on_32bit_witness :
    readCpuTimer_x86_64 0xFFFFFFFF 1 = readCpuTimer_x86_64 (2 ^ 32 - 1) (3 - 2) ∧
      (1 = 3 - 2 ∧ 0xFFFFFFFF = 2 ^ 32 - 1) :=
  ⟨by decide,
    C7_injective_on_32bit 0xFFFFFFFF 1 (2 ^ 32 - 1) (3 - 2) (by norm_num) (by norm_num)
      (by norm_num) (by norm_num) (by decide)⟩

/-- C8: the x86-64 combination preserves order: for 32-bit pairs with `(high1, low1)`
lexicographically at most `(high2, low2)`, the returned values satisfy `a ≤ b`. -/
theorem C8_order_preserved (low1 high1 low2 high2 : Nat)
    (hl1 : low1 < 2 ^ 32) (hh1 : high1 < 2 ^ 32) (hl2 : low2 < 2 ^ 32) (hh2 : high2 < 2 ^ 32)
    (hlex : high1 < high2 ∨ (high1 = high2 ∧ low1 ≤ low2)) :
    readCpuTimer_x86_64 low1 high1 ≤ readCpuTimer_x86_64 low2 high2 := by
  rw [x86_64_eq_of_lt hl1 hh1, x86_64_eq_of_lt hl2 hh2]
  omega

/-- C8 across a carry from the low half into the high half: `(0, 0xFFFFFFFF)` is
followed by `(1, 0)`. -/
theorem C8_order_preserved_witness :
    ((0 : Nat) < 1 ∨ ((0 : Nat) = 1 ∧ 0xFFFFFFFF ≤ 0)) ∧
      readCpuTimer_x86_64 0xFFFFFFFF 0 ≤ readCpuTimer_x86_64 0 1 :=
  ⟨Or.inl (by decide),
    C8_order_preserved 0xFFFFFFFF 0 0 1 (by norm_num) (by norm_num) (by norm_num)
      (by norm_num) (Or.inl (by decide))⟩

/-- C10: the combination order is not symmetric. For 32-bit `high ≠ low`, the value
`(high << 32) | low` differs from the swapped combination `(low << 32) | high` (the same
code run with the two register contents exchanged), the distance between the two is
`|high - low| * (2 ^ 32 - 1)`, and that distance is at least `2 ^ 32 - 1`. -/
theorem C10_swap_changes_value (low high : Nat) (hl : low < 2 ^ 32) (hh : high < 2 ^ 32)
    (hne : high ≠ low) :
    readCpuTimer_x86_64 low high ≠ readCpuTimer_x86_64 high low ∧
      Int.natAbs ((readCpuTimer_x86_64 low high : Int) - (readCpuTimer_x86_64 high low : Int))
        = Int.natAbs ((high : Int) - (low : Int)) * (2 ^ 32 - 1) ∧
      2 ^ 32 - 1 ≤
        Int.natAbs ((readCpuTimer_x86_64 low high : Int) - (readCpuTimer_x86_64 high low : Int)) := by
  rw [x86_64_eq_of_lt hl hh, x86_64_eq_of_lt hh hl]
  push_cast
  refine ⟨?_, ?_, ?_⟩ <;> omega

/-- C10 at the pair of the specification, `low = 0xFFFFFFFF` and `high = 1`: the correct
value is `0x1FFFFFFFF`, the swapped one `0xFFFFFFFF00000001`. -/
theorem C10_swap_changes_value_witness :
    readCpuTimer_x86_64 0xFFFFFFFF 1 = 0x1FFFFFFFF ∧
      readCpuTimer_x86_64 1 0xFFFFFFFF = 0xFFFFFFFF00000001 ∧
      readCpuTimer_x86_64 0xFFFFFFFF 1 ≠ readCpuTimer_x86_64 1 0xFFFFFFFF :=
  ⟨by decide, by decide,
    (C10_swap_changes_value 0xFFFFFFFF 1 (by norm_num) (by norm_num) (by norm_num)).1⟩

end Cycles
